import Mathlib

/-!
Verification of the Image-Hub generation orchestration engine.

The definitions below are a shallow embedding of the TypeScript source:
the mode/state enumerations and the React component state of `App`
(src/unnamed/part_001), the pure logic of `canSubmit`, the mode-switch
button handler, `addToHistory`, `chainResultToInput` and the PCM audio
decode in `handleSpeak`, and the provider adapters of
src/unnamed/part_000 (`generateVideo` ratio and prompt shaping,
`analyzeImage` / `analyzeFood` / `deepReasoning` payload handling,
the inline-data extraction loop shared by the image adapters, and the
`generateSpeech` text sanitisation).  JavaScript strings are modelled by
Lean strings (character lists where indexing matters), a missing value
by `Option`, a thrown exception by `Except.error`, and the float
division by 32768.0 by exact rational division (division of an integer
in [-32768, 32767] by the power of two 32768 is exact in binary
floating point, so the rational model is faithful).
-/

/-- AppMode enumeration from src/types.ts. -/
inductive AppMode
  | COMPOSITE
  | GENERATE
  | EDIT
  | ANIMATE
  | ANALYZE
  | CULINARY
  | REASON
deriving DecidableEq

/-- AppState enumeration from src/types.ts. -/
inductive AppState
  | IDLE
  | GENERATING
  | SUCCESS
  | ERROR
deriving DecidableEq

/-- ResultType union from src/types.ts. -/
inductive ResultType
  | image
  | video
  | text
deriving DecidableEq

/-- AspectRatio union from src/types.ts. -/
inductive AspectRatio
  | r1x1
  | r2x3
  | r3x2
  | r3x4
  | r4x3
  | r9x16
  | r16x9
  | r21x9
deriving DecidableEq

/-- ImageSize union from src/types.ts. -/
inductive ImageSize
  | s1K
  | s2K
  | s4K
deriving DecidableEq

/-- FileData from src/types.ts (the opaque File object is omitted; the
base64 payload, preview URL and MIME type are kept). -/
structure FileData where
  previewUrl : String
  base64 : String
  mimeType : String
deriving DecidableEq

/-- PromptHistoryItem from src/types.ts. -/
structure PromptHistoryItem where
  id : String
  text : String
  timestamp : Nat
deriving DecidableEq

/-- The useState fields of the App component (src/unnamed/part_001). -/
structure AppSt where
  mode : AppMode
  bgImage : Option FileData
  refImage : Option FileData
  description : String
  aspectRatio : AspectRatio
  imageSize : ImageSize
  isVerified : Bool
  appState : AppState
  resultContent : Option String
  resultType : ResultType
  errorMessage : Option String
  promptHistory : List PromptHistoryItem
  statusText : String
  isPlayingAudio : Bool
deriving DecidableEq

/-- canSubmit from src/unnamed/part_001 lines 275-287, transcribed
branch by branch. -/
def canSubmit (s : AppSt) : Bool :=
  if s.appState = AppState.GENERATING then false
  else if s.mode = AppMode.REASON then !(s.description == "")
  else if s.mode = AppMode.GENERATE ∧ s.description = "" then false
  else if s.mode ∈ [AppMode.COMPOSITE, AppMode.EDIT, AppMode.ANIMATE,
      AppMode.ANALYZE, AppMode.CULINARY] ∧ s.bgImage = none then false
  else if s.mode = AppMode.COMPOSITE ∧ (s.refImage = none ∨ ¬s.isVerified)
    then false
  else true

/-- The per-mode input requirements as the specification words them:
Reason and Generate need non-empty directive text, the asset modes need
the primary asset, Composite additionally needs the reference asset and
the ownership flag. -/
def canSubmitSpec (s : AppSt) : Prop :=
  s.appState ≠ AppState.GENERATING ∧
  match s.mode with
  | AppMode.REASON => s.description ≠ ""
  | AppMode.GENERATE => s.description ≠ ""
  | AppMode.EDIT => s.bgImage ≠ none
  | AppMode.ANIMATE => s.bgImage ≠ none
  | AppMode.ANALYZE => s.bgImage ≠ none
  | AppMode.CULINARY => s.bgImage ≠ none
  | AppMode.COMPOSITE =>
      s.bgImage ≠ none ∧ s.refImage ≠ none ∧ s.isVerified = true

/-- Claim C1: canSubmit is false while Generating, and otherwise holds
exactly when the mode-specific requirements are met; for Composite,
clearing the ownership flag makes it false again. -/
theorem canSubmit_spec (s : AppSt) :
    (canSubmit s = true ↔ canSubmitSpec s)
    ∧ (s.mode = AppMode.COMPOSITE → canSubmit s = true →
        canSubmit { s with isVerified := false } = false) := by
  constructor
  · obtain ⟨mo, bg, rf, de, ar, sz, ve, st, rc, rt, er, ph, tx, pa⟩ := s
    cases mo <;> cases st <;>
      simp [canSubmit, canSubmitSpec, beq_iff_eq]
  · intro hm _
    obtain ⟨mo, bg, rf, de, ar, sz, ve, st, rc, rt, er, ph, tx, pa⟩ := s
    subst hm
    by_cases hg : st = AppState.GENERATING <;> simp [canSubmit, hg]

/-- Witness for canSubmit_spec at a concrete Composite session. -/
def sC1 : AppSt :=
  { mode := AppMode.COMPOSITE
    bgImage := some ⟨"blob:bg", "QUFB", "image/png"⟩
    refImage := some ⟨"blob:ref", "QkJC", "image/jpeg"⟩
    description := "insert the subject"
    aspectRatio := AspectRatio.r1x1
    imageSize := ImageSize.s1K
    isVerified := true
    appState := AppState.IDLE
    resultContent := none
    resultType := ResultType.image
    errorMessage := none
    promptHistory := []
    statusText := "Processing..."
    isPlayingAudio := false }

/-- Witness: canSubmit_spec evaluated on the concrete session sC1. -/
theorem canSubmit_spec_witness :
    canSubmit sC1 = true ∧ canSubmit { sC1 with isVerified := false } = false :=
  ⟨by decide, (canSubmit_spec sC1).2 rfl (by decide)⟩

/-- The mode-switch navigation handler from src/unnamed/part_001 line
352: onClick sets the mode and nulls resultContent, and nothing else. -/
def modeSwitch (m : AppMode) (s : AppSt) : AppSt :=
  { s with mode := m, resultContent := none }

/-- A session in the middle of a generation, used to exercise the
mode-switch handler while SessionState is Generating. -/
def sC5 : AppSt :=
  { mode := AppMode.COMPOSITE
    bgImage := some ⟨"blob:bg", "QUFB", "image/png"⟩
    refImage := none
    description := "a directive"
    aspectRatio := AspectRatio.r1x1
    imageSize := ImageSize.s1K
    isVerified := false
    appState := AppState.GENERATING
    resultContent := none
    resultType := ResultType.image
    errorMessage := none
    promptHistory := []
    statusText := "Blending realities..."
    isPlayingAudio := false }

/-- Claim C5 counterexample: the mode-switch handler executes while
SessionState is Generating (no guard exists), and it leaves
SessionState unchanged instead of resetting it to Idle. -/
theorem modeSwitch_cex :
    sC5.appState = AppState.GENERATING
    ∧ (modeSwitch AppMode.EDIT sC5).mode = AppMode.EDIT
    ∧ (modeSwitch AppMode.EDIT sC5).appState = AppState.GENERATING
    ∧ AppState.GENERATING ≠ AppState.IDLE := by
  refine ⟨rfl, rfl, rfl, by decide⟩

/-- Claim C5 amended: the mode-switch handler runs regardless of
SessionState; it sets the mode, clears the active result artifact, and
leaves SessionState, both input assets, the directive text, the
verification flag and the history unchanged. -/
theorem modeSwitch_spec (m : AppMode) (s : AppSt) :
    (modeSwitch m s).mode = m
    ∧ (modeSwitch m s).resultContent = none
    ∧ (modeSwitch m s).appState = s.appState
    ∧ (modeSwitch m s).bgImage = s.bgImage
    ∧ (modeSwitch m s).refImage = s.refImage
    ∧ (modeSwitch m s).description = s.description
    ∧ (modeSwitch m s).isVerified = s.isVerified
    ∧ (modeSwitch m s).promptHistory = s.promptHistory :=
  ⟨rfl, rfl, rfl, rfl, rfl, rfl, rfl, rfl⟩

/-- chainResultToInput from src/unnamed/part_001 lines 242-273.  The
browser fetch of the image binary is modelled by the boolean fetchOk;
on failure the source logs and falls through (the catch block only
calls console.error), and the trailing setMode / setResultContent /
setAppState statements run in every case.  The JavaScript falsy guard
means an empty-string resultContent also returns early. -/
def chainResultToInput (fetchOk : Bool) (targetMode : AppMode)
    (s : AppSt) : AppSt :=
  if s.resultContent = none ∨ s.resultContent = some "" then s
  else
    let content := s.resultContent.getD ""
    let s1 :=
      if s.resultType = ResultType.image then
        if fetchOk then
          { s with
            bgImage := some
              { previewUrl := content
                base64 := (content.splitOn ",").getD 1 ""
                mimeType := "image/png" }
            refImage := none
            description := "" }
        else s
      else if s.resultType = ResultType.text then
        { s with description := content }
      else s
    { s1 with
      mode := targetMode
      resultContent := none
      appState := AppState.IDLE }

/-- A session holding a successful Image result, used to exercise
chaining when the binary refetch fails. -/
def sC2 : AppSt :=
  { mode := AppMode.GENERATE
    bgImage := none
    refImage := none
    description := "a red fox"
    aspectRatio := AspectRatio.r1x1
    imageSize := ImageSize.s1K
    isVerified := false
    appState := AppState.SUCCESS
    resultContent := some "data:image/png;base64,QUFBQQ"
    resultType := ResultType.image
    errorMessage := none
    promptHistory := []
    statusText := "Generating..."
    isPlayingAudio := false }

/-- Claim C2 counterexample: with an Image result active and the
refetch failing, the chain operation still switches the mode, clears
the result artifact and resets SessionState to Idle, so the failure is
not atomic and no ChainError is surfaced. -/
theorem chainImageFailure_cex :
    sC2.mode = AppMode.GENERATE
    ∧ sC2.appState = AppState.SUCCESS
    ∧ (chainResultToInput false AppMode.EDIT sC2).mode = AppMode.EDIT
    ∧ (chainResultToInput false AppMode.EDIT sC2).appState = AppState.IDLE
    ∧ (chainResultToInput false AppMode.EDIT sC2).resultContent = none
    ∧ sC2.resultContent ≠ none := by
  refine ⟨rfl, rfl, by decide, by decide, by decide, by decide⟩

/-- Claim C2 amended: when the refetch of an Image result fails, the
error is swallowed (only logged) and the input assets and directive
text are preserved, but the mode switch still occurs: the mode becomes
the target, the result artifact is cleared and SessionState becomes
Idle. -/
theorem chainImageFailure_spec (target : AppMode) (s : AppSt) (c : String)
    (h1 : s.resultContent = some c) (h2 : c ≠ "")
    (h3 : s.resultType = ResultType.image) :
    (chainResultToInput false target s).bgImage = s.bgImage
    ∧ (chainResultToInput false target s).refImage = s.refImage
    ∧ (chainResultToInput false target s).description = s.description
    ∧ (chainResultToInput false target s).mode = target
    ∧ (chainResultToInput false target s).resultContent = none
    ∧ (chainResultToInput false target s).appState = AppState.IDLE := by
  simp [chainResultToInput, h1, h2, h3]

/-- Witness: chainImageFailure_spec applied to the concrete session
sC2. -/
theorem chainImageFailure_witness :
    sC2.resultContent = some "data:image/png;base64,QUFBQQ"
    ∧ (chainResultToInput false AppMode.ANIMATE sC2).bgImage = sC2.bgImage
    ∧ (chainResultToInput false AppMode.ANIMATE sC2).mode = AppMode.ANIMATE :=
  ⟨rfl,
    (chainImageFailure_spec AppMode.ANIMATE sC2 "data:image/png;base64,QUFBQQ"
      rfl (by decide) rfl).1,
    (chainImageFailure_spec AppMode.ANIMATE sC2 "data:image/png;base64,QUFBQQ"
      rfl (by decide) rfl).2.2.2.1⟩

/-- A session holding a Video result, used to exercise chaining from a
Video source. -/
def sC8 : AppSt :=
  { mode := AppMode.ANIMATE
    bgImage := some ⟨"blob:src", "Q0ND", "image/png"⟩
    refImage := none
    description := "make it move"
    aspectRatio := AspectRatio.r16x9
    imageSize := ImageSize.s1K
    isVerified := false
    appState := AppState.SUCCESS
    resultContent := some "blob:video-1"
    resultType := ResultType.video
    errorMessage := none
    promptHistory := []
    statusText := "Rendering frames (this may take a moment)..."
    isPlayingAudio := false }

/-- Claim C8 counterexample: invoked on a Video result, the chain
operation does perform a transition: the mode changes, the result
artifact is cleared and SessionState becomes Idle. -/
theorem chainVideo_cex :
    sC8.mode = AppMode.ANIMATE
    ∧ sC8.resultContent = some "blob:video-1"
    ∧ (chainResultToInput true AppMode.EDIT sC8).mode = AppMode.EDIT
    ∧ (chainResultToInput true AppMode.EDIT sC8).resultContent = none
    ∧ (chainResultToInput true AppMode.EDIT sC8).appState = AppState.IDLE
    ∧ sC8.appState = AppState.SUCCESS := by
  refine ⟨rfl, rfl, by decide, by decide, by decide, rfl⟩

/-- Claim C8 amended: the UI offers chain buttons only for Image
results, so a Video result is not chainable through the interface; the
chain function itself, invoked on a Video result, leaves the input
assets and the directive text unchanged but still sets the mode to the
target, clears the result artifact and resets SessionState to Idle. -/
theorem chainVideo_spec (fetchOk : Bool) (target : AppMode) (s : AppSt)
    (c : String) (h1 : s.resultContent = some c) (h2 : c ≠ "")
    (h3 : s.resultType = ResultType.video) :
    (chainResultToInput fetchOk target s).bgImage = s.bgImage
    ∧ (chainResultToInput fetchOk target s).refImage = s.refImage
    ∧ (chainResultToInput fetchOk target s).description = s.description
    ∧ (chainResultToInput fetchOk target s).mode = target
    ∧ (chainResultToInput fetchOk target s).resultContent = none
    ∧ (chainResultToInput fetchOk target s).appState = AppState.IDLE := by
  simp [chainResultToInput, h1, h2, h3]

/-- Witness: chainVideo_spec applied to the concrete session sC8. -/
theorem chainVideo_witness :
    sC8.resultType = ResultType.video
    ∧ (chainResultToInput true AppMode.CULINARY sC8).description
        = sC8.description
    ∧ (chainResultToInput true AppMode.CULINARY sC8).mode = AppMode.CULINARY :=
  ⟨rfl,
    (chainVideo_spec true AppMode.CULINARY sC8 "blob:video-1" rfl
      (by decide) rfl).2.2.1,
    (chainVideo_spec true AppMode.CULINARY sC8 "blob:video-1" rfl
      (by decide) rfl).2.2.2.1⟩

/-- The JavaScript String.prototype.trim operation: whitespace removed
from both ends (modelled on the character list of the string). -/
def jsTrim (s : String) : String :=
  String.mk
    (((s.data.dropWhile Char.isWhitespace).reverse.dropWhile
        Char.isWhitespace).reverse)

/-- addToHistory from src/unnamed/part_001 lines 123-132: whitespace-only
text is dropped, insertion is suppressed when the raw new text equals
the stored (trimmed) text of the most recent entry, and the new entry
is stored with trimmed text at the front of the list, capped at 20. -/
def addToHistory (newId : String) (ts : Nat) (text : String)
    (prev : List PromptHistoryItem) : List PromptHistoryItem :=
  if jsTrim text = "" then prev
  else
    match prev with
    | p :: _ =>
        if p.text = text then prev
        else ({ id := newId, text := jsTrim text, timestamp := ts } :: prev).take 20
    | [] => ([{ id := newId, text := jsTrim text, timestamp := ts }]).take 20

/-- Claim C6 counterexample: the dedup check compares the raw new text
against the trimmed stored text, so submitting the directive " a"
twice in a row inserts two entries whose stored texts are equal. -/
theorem history_cex :
    addToHistory "id2" 2 " a" (addToHistory "id1" 1 " a" [])
      = [{ id := "id2", text := "a", timestamp := 2 },
         { id := "id1", text := "a", timestamp := 1 }] := by decide

/-- Claim C6 amended: for directive text already equal to its trim,
submitting it twice in a row inserts only one entry; the stored list
never exceeds 20 entries when it did not before; and a non-duplicate,
non-blank submission is inserted at the front (with trimmed text) and
the list truncated to 20, most-recent-first. -/
theorem history_spec (id1 id2 : String) (t1 t2 : Nat) (text : String)
    (prev : List PromptHistoryItem) :
    (jsTrim text = text →
      addToHistory id2 t2 text (addToHistory id1 t1 text prev)
        = addToHistory id1 t1 text prev)
    ∧ (prev.length ≤ 20 → (addToHistory id1 t1 text prev).length ≤ 20)
    ∧ (jsTrim text ≠ "" → (∀ p, prev.head? = some p → p.text ≠ text) →
        addToHistory id1 t1 text prev
          = ({ id := id1, text := jsTrim text, timestamp := t1 } :: prev).take 20) := by
  refine ⟨?_, ?_, ?_⟩
  · intro ht
    by_cases h0 : text = ""
    · simp [addToHistory, ht, h0, show jsTrim "" = "" from rfl]
    · cases prev with
      | nil => simp [addToHistory, ht, h0]
      | cons p rest =>
          by_cases hp : p.text = text
          · simp [addToHistory, ht, h0, hp]
          · simp [addToHistory, ht, h0, hp]
  · intro hlen
    by_cases h0 : jsTrim text = ""
    · simpa [addToHistory, h0] using hlen
    · cases prev with
      | nil => simp [addToHistory, h0]
      | cons p rest =>
          by_cases hp : p.text = text
          · simpa [addToHistory, h0, hp] using hlen
          · simp [addToHistory, h0, hp, List.length_take]
  · intro h0 hnd
    cases prev with
    | nil => simp [addToHistory, h0]
    | cons p rest => simp [addToHistory, h0, hnd p rfl]

/-- Witness: history_spec applied to the directive "hello" and an
empty stored list. -/
theorem history_witness :
    addToHistory "b" 2 "hello" (addToHistory "a" 1 "hello" [])
      = addToHistory "a" 1 "hello" []
    ∧ (addToHistory "a" 1 "hello" []).length ≤ 20
    ∧ addToHistory "a" 1 "hello" []
      = ([{ id := "a", text := jsTrim "hello", timestamp := 1 }]
          : List PromptHistoryItem).take 20 :=
  ⟨(history_spec "a" "b" 1 2 "hello" []).1 (by decide),
   (history_spec "a" "b" 1 2 "hello" []).2.1 (by decide),
   (history_spec "a" "b" 1 2 "hello" []).2.2 (by decide)
     (fun p hp => Option.noConfusion hp)⟩

/-- The Veo aspect-ratio mapping from src/unnamed/part_000 line 139:
9:16 is kept, everything else becomes 16:9. -/
def mapVideoRatio (ratio : AspectRatio) : AspectRatio :=
  if ratio = AspectRatio.r9x16 then AspectRatio.r9x16 else AspectRatio.r16x9

/-- The Veo prompt default from src/unnamed/part_000 line 143: an empty
directive is replaced by the default directive. -/
def videoPrompt (p : String) : String :=
  if p = "" then "Animate this image cinematically" else p

/-- Claim C4: the dispatched Animate request preserves 9:16, collapses
every other requested ratio to 16:9, and substitutes the default
directive when the directive text is empty. -/
theorem generateVideo_spec :
    mapVideoRatio AspectRatio.r9x16 = AspectRatio.r9x16
    ∧ (∀ r, r ≠ AspectRatio.r9x16 → mapVideoRatio r = AspectRatio.r16x9)
    ∧ videoPrompt "" = "Animate this image cinematically"
    ∧ (∀ p, p ≠ "" → videoPrompt p = p) := by
  refine ⟨rfl, ?_, rfl, ?_⟩
  · intro r hr
    cases r <;> first | rfl | exact absurd rfl hr
  · intro p hp
    simp [videoPrompt, hp]

/-- Witness: generateVideo_spec at the requested ratio 3:4 and a
non-empty directive. -/
theorem generateVideo_witness :
    mapVideoRatio AspectRatio.r3x4 = AspectRatio.r16x9
    ∧ videoPrompt "pan left" = "pan left" :=
  ⟨generateVideo_spec.2.1 AspectRatio.r3x4 (by decide),
   generateVideo_spec.2.2.2 "pan left" (by decide)⟩

/-- The Analyze prompt default from src/unnamed/part_000 line 185: an
empty directive is replaced by the fixed analysis instruction. -/
def analyzeDispatchedPrompt (p : String) : String :=
  if p = "" then
    "Analyze this image in extreme detail. Structure your response with headers."
  else p

/-- The result kind stored per mode by handleAction
(src/unnamed/part_001 lines 156-191). -/
def modeResultType : AppMode → ResultType
  | AppMode.COMPOSITE => ResultType.image
  | AppMode.GENERATE => ResultType.image
  | AppMode.EDIT => ResultType.image
  | AppMode.ANIMATE => ResultType.video
  | AppMode.ANALYZE => ResultType.text
  | AppMode.CULINARY => ResultType.text
  | AppMode.REASON => ResultType.text

/-- Claim C7 counterexample: the default Analyze prompt dispatched for
an empty directive is the fixed analysis instruction, not the string
"describe in detail" named by the claim. -/
theorem analyzePrompt_cex :
    analyzeDispatchedPrompt ""
      = "Analyze this image in extreme detail. Structure your response with headers."
    ∧ analyzeDispatchedPrompt "" ≠ "describe in detail" :=
  ⟨rfl, by decide⟩

/-- Claim C7 amended: for an empty directive the Analyze adapter
dispatches the default prompt "Analyze this image in extreme detail.
Structure your response with headers."; a non-empty directive is
dispatched as given; the Analyze result is stored as a Text artifact. -/
theorem analyzePrompt_spec :
    analyzeDispatchedPrompt ""
      = "Analyze this image in extreme detail. Structure your response with headers."
    ∧ (∀ p, p ≠ "" → analyzeDispatchedPrompt p = p)
    ∧ modeResultType AppMode.ANALYZE = ResultType.text := by
  refine ⟨rfl, ?_, rfl⟩
  intro p hp
  simp [analyzeDispatchedPrompt, hp]

/-- Witness: analyzePrompt_spec at a non-empty directive. -/
theorem analyzePrompt_witness :
    analyzeDispatchedPrompt "what is this" = "what is this" :=
  analyzePrompt_spec.2.1 "what is this" (by decide)

/-- One part of a generateContent response candidate: either inline
media data or text. -/
inductive RespPart
  | inlineData (mimeType data : String)
  | textPart (content : String)
deriving DecidableEq

/-- The extraction loop shared by generateRelationshipPhoto,
generateImage and editImage (src/unnamed/part_000 lines 54-59, 84-89,
118-123): return the first inline-data part as a data URL, otherwise
throw "No image generated". -/
def extractInlineImage : List RespPart → Except String String
  | [] => Except.error "No image generated"
  | RespPart.inlineData _ d :: _ => Except.ok ("data:image/png;base64," ++ d)
  | RespPart.textPart _ :: rest => extractInlineImage rest

/-- The JavaScript pattern (t || d): the default is used when t is
undefined or the empty string. -/
def jsFalsyOr (t : Option String) (d : String) : String :=
  match t with
  | none => d
  | some s => if s = "" then d else s

/-- Payload handling of analyzeImage (src/unnamed/part_000 line 201):
the response text, or the placeholder when it is empty or missing. -/
def analyzeImageResult (respText : Option String) : Except String String :=
  Except.ok (jsFalsyOr respText "No analysis generated.")

/-- Payload handling of analyzeFood (src/unnamed/part_000 line 231):
the response text, or the placeholder when it is empty or missing. -/
def analyzeFoodResult (respText : Option String) : Except String String :=
  Except.ok (jsFalsyOr respText "Could not analyze food.")

/-- One grounding chunk of a deepReasoning response
(src/unnamed/part_000 lines 256-264). -/
structure GroundingChunk where
  uri : Option String
  title : String
deriving DecidableEq

/-- The source line appended per grounding chunk: skipped when the web
URI is missing or empty (the falsy check on chunk.web.uri). -/
def chunkLine (c : GroundingChunk) : String :=
  match c.uri with
  | some u => if u = "" then "" else "- [" ++ c.title ++ "](" ++ u ++ ")\n"
  | none => ""

/-- Payload handling of deepReasoning (src/unnamed/part_000 lines
254-267): the response text (empty when missing), a Sources trailer
when grounding chunks are present, and the placeholder when the final
text is still empty. -/
def deepReasoningResult (respText : Option String)
    (chunks : Option (List GroundingChunk)) : Except String String :=
  let t0 := jsFalsyOr respText ""
  let t1 :=
    match chunks with
    | some cs => t0 ++ "\n\n### Sources\n" ++ String.join (cs.map chunkLine)
    | none => t0
  Except.ok (if t1 = "" then "No reasoning generated." else t1)

/-- Video URI handling of generateVideo (src/unnamed/part_000 lines
161-162): throw when the operation resolves without a usable URI. -/
def videoUriResult (uri : Option String) : Except String String :=
  match uri with
  | none => Except.error "No video generated"
  | some u => if u = "" then Except.error "No video generated" else Except.ok u

/-- Audio payload handling of generateSpeech (src/unnamed/part_000
lines 294-295): throw when no inline audio data is returned. -/
def speechAudioResult (b64 : Option String) : Except String String :=
  match b64 with
  | none => Except.error "No audio generated"
  | some d => if d = "" then Except.error "No audio generated" else Except.ok d

/-- Claim C3 counterexample: the three text adapters return Ok with
placeholder content on an empty backend text instead of failing with a
provider error. -/
theorem providerPayload_cex :
    analyzeImageResult (some "") = Except.ok "No analysis generated."
    ∧ analyzeFoodResult (some "") = Except.ok "Could not analyze food."
    ∧ deepReasoningResult (some "") none = Except.ok "No reasoning generated." :=
  ⟨rfl, rfl, rfl⟩

/-- Helper: the inline-image extraction loop fails when no part holds
inline data. -/
theorem extractInlineImage_err (parts : List RespPart)
    (hp : ∀ m d, RespPart.inlineData m d ∉ parts) :
    extractInlineImage parts = Except.error "No image generated" := by
  induction parts with
  | nil => rfl
  | cons p rest ih =>
      cases p with
      | inlineData m d => exact absurd (List.mem_cons_self _ _) (hp m d)
      | textPart c =>
          simpa [extractInlineImage] using
            ih (fun m d hmem => hp m d (List.mem_cons_of_mem _ hmem))

/-- Claim C3 amended: the media adapters (the image-extraction loop,
the video URI resolution and the speech audio payload) fail when the
backend returns no usable payload, but the text adapters Analyze,
Culinary and Reason do not fail on empty text: they substitute the
fixed placeholder strings instead of surfacing a provider error. -/
theorem providerPayload_spec (t : Option String) (parts : List RespPart)
    (ht : t = none ∨ t = some "")
    (hp : ∀ m d, RespPart.inlineData m d ∉ parts) :
    extractInlineImage parts = Except.error "No image generated"
    ∧ videoUriResult t = Except.error "No video generated"
    ∧ speechAudioResult t = Except.error "No audio generated"
    ∧ analyzeImageResult t = Except.ok "No analysis generated."
    ∧ analyzeFoodResult t = Except.ok "Could not analyze food."
    ∧ deepReasoningResult t none = Except.ok "No reasoning generated." := by
  rcases ht with rfl | rfl <;>
    exact ⟨extractInlineImage_err parts hp, rfl, rfl, rfl, rfl, rfl⟩

/-- Witness: providerPayload_spec on a text-only candidate and a
missing payload. -/
theorem providerPayload_witness :
    extractInlineImage [RespPart.textPart "hi"] = Except.error "No image generated"
    ∧ videoUriResult none = Except.error "No video generated"
    ∧ speechAudioResult none = Except.error "No audio generated" :=
  ⟨(providerPayload_spec none [RespPart.textPart "hi"] (Or.inl rfl)
      (fun m d h => by simp at h)).1,
   (providerPayload_spec none [RespPart.textPart "hi"] (Or.inl rfl)
      (fun m d h => by simp at h)).2.1,
   (providerPayload_spec none [RespPart.textPart "hi"] (Or.inl rfl)
      (fun m d h => by simp at h)).2.2.1⟩

/-- Interpretation of two bytes as one signed 16-bit little-endian
sample, as the Int16Array view in handleSpeak does
(src/unnamed/part_001 line 220). -/
def toInt16 (lo hi : Nat) : Int :=
  let u := lo + 256 * hi
  if u < 32768 then (u : Int) else (u : Int) - 65536

/-- The Int16Array view of a byte buffer: consecutive little-endian
16-bit samples. -/
def samplesOf : List Nat → List Int
  | lo :: hi :: rest => toInt16 lo hi :: samplesOf rest
  | _ => []

/-- The PCM decode loop of handleSpeak (src/unnamed/part_001 lines
220-224): each 16-bit sample divided by 32768.0, one output element
per sample.  Exact rationals model the float values: division of an
integer in [-32768, 32767] by the power of two 32768 is exact in
binary floating point. -/
def decodePCM16 : List Nat → List Rat
  | lo :: hi :: rest => ((toInt16 lo hi : Int) : Rat) / 32768 :: decodePCM16 rest
  | _ => []

/-- Helper: the decode loop is pointwise division of the sample view
by 32768. -/
theorem decodePCM16_eq_map :
    ∀ bytes : List Nat,
      decodePCM16 bytes = (samplesOf bytes).map (fun s : Int => ((s : Rat) / 32768))
  | [] => rfl
  | [_] => rfl
  | lo :: hi :: rest => by
      simp only [decodePCM16, samplesOf, List.map_cons]
      exact congrArg _ (decodePCM16_eq_map rest)

/-- Claim C9: the decode produces one float per 16-bit sample, each
equal to the sample divided by 32768, and the buffer
[0x00, 0x80, 0x00, 0x00] decodes to [-1, 0]. -/
theorem decodePCM_spec (bytes : List Nat) :
    (decodePCM16 bytes).length = (samplesOf bytes).length
    ∧ decodePCM16 bytes = (samplesOf bytes).map (fun s : Int => ((s : Rat) / 32768))
    ∧ decodePCM16 [0x00, 0x80, 0x00, 0x00] = [-1, 0] := by
  refine ⟨?_, decodePCM16_eq_map bytes, ?_⟩
  · rw [decodePCM16_eq_map bytes]
    exact List.length_map _ _
  · norm_num [decodePCM16, toInt16]

/-- The banned-character class of the generateSpeech sanitiser
(src/unnamed/part_000 line 279). -/
def bannedChar (c : Char) : Bool :=
  c = '*' || c = '#' || c = '[' || c = ']' || c = '(' || c = ')'

/-- The generateSpeech sanitiser (src/unnamed/part_000 line 279):
remove every banned character, then keep the first 1000 characters. -/
def cleanForSpeech (text : List Char) : List Char :=
  (text.filter (fun c => !bannedChar c)).take 1000

/-- Helper: filtering out an element actually present in the list
strictly shrinks it. -/
theorem length_filter_lt_of_mem {p : Char → Bool} {l : List Char} {c : Char}
    (hc : c ∈ l) (hpc : p c = false) : (l.filter p).length < l.length := by
  induction l with
  | nil => exact absurd hc (List.not_mem_nil c)
  | cons a l ih =>
      by_cases ha : p a = true
      · have hcl : c ∈ l := by
          rcases List.mem_cons.mp hc with rfl | hmem
          · rw [hpc] at ha; cases ha
          · exact hmem
        simpa [List.filter_cons, ha] using Nat.succ_lt_succ (ih hcl)
      · simp only [List.filter_cons, ha, if_neg, Bool.false_eq_true,
          not_false_iff, List.length_cons]
        exact Nat.lt_succ_of_le (List.length_filter_le p l)

/-- Claim C10: the narration input contains no banned character, is at
most 1000 characters long, and differs from the raw result text
whenever that text contains a banned character or exceeds 1000
characters. -/
theorem cleanForSpeech_spec (text : List Char) :
    (∀ c ∈ cleanForSpeech text, bannedChar c = false)
    ∧ (cleanForSpeech text).length ≤ 1000
    ∧ (((∃ c ∈ text, bannedChar c = true) ∨ 1000 < text.length) →
        cleanForSpeech text ≠ text) := by
  refine ⟨?_, ?_, ?_⟩
  · intro c hc
    have hmem := List.take_subset 1000 _ hc
    have := (List.mem_filter.mp hmem).2
    simpa using this
  · rw [cleanForSpeech, List.length_take]
    exact Nat.min_le_left _ _
  · intro h heq
    have hlen : (cleanForSpeech text).length = text.length := by rw [heq]
    rcases h with ⟨c, hcmem, hcban⟩ | hlong
    · have hfil : ((text.filter (fun c => !bannedChar c)).length < text.length) :=
        length_filter_lt_of_mem hcmem (by simp [hcban])
      have htake : (cleanForSpeech text).length
          ≤ (text.filter (fun c => !bannedChar c)).length := by
        rw [cleanForSpeech, List.length_take]
        exact Nat.min_le_right _ _
      omega
    · have : (cleanForSpeech text).length ≤ 1000 := by
        rw [cleanForSpeech, List.length_take]
        exact Nat.min_le_left _ _
      omega

/-- Witness: cleanForSpeech_spec on a short text containing a banned
character. -/
theorem cleanForSpeech_witness :
    cleanForSpeech ['a', '*', 'b'] ≠ ['a', '*', 'b'] :=
  (cleanForSpeech_spec ['a', '*', 'b']).2.2
    (Or.inl ⟨'*', by decide, by decide⟩)
